import Mathlib

/-!
Verification of the queryist plan-analysis core.

Shallow embedding of:
- `lib/analyzers/postgreAnalyzer.js` (PostgreAnalyzer: `analyze`,
  `generateRecommendations`, the ten `analyze*` rule methods,
  `prioritizeRecommendations`, `analyzePlanNode`);
- the MySQL analyzer (`lib/analyzers/mysqlAnalyzer.js`, shipped in the
  repository README): `analyzeTableStatistics`;
- a plan normalizer modelled from the specification (the repository has no
  normalizer code; rules read native plan fields directly).

JavaScript conventions used throughout the embedding:
- an absent object field (`undefined`) is an `Option` that is `none`;
- `x > k` on a possibly-absent numeric field is false when the field is
  absent (`undefined > k` is false in JS);
- truthiness tests on flag fields are plain `Bool`s defaulting to `false`;
- rendered i18n messages are opaque to the core: `i18n.t(key, params)` is
  modelled as the pair of the key and the parameter list.
-/

namespace Queryist

/-- JS `a > k` where `a` may be `undefined`: `undefined > k` is `false`. -/
def jsGtNat (a : Option Nat) (k : Nat) : Bool :=
  match a with
  | some n => k < n
  | none => false

/-- JS `a > b` where either side may be `undefined`: any comparison with
`undefined` is `false`. -/
def jsGtOpt (a b : Option Nat) : Bool :=
  match a, b with
  | some x, some y => y < x
  | _, _ => false

/-- JS falsiness of a possibly-absent numeric field: `undefined` and `0`
are falsy. -/
def jsFalsyNat (a : Option Nat) : Bool :=
  match a with
  | some n => n == 0
  | none => true

/-- The character list `l` starts with the character list `pat`. -/
def listStartsWith : List Char → List Char → Bool
  | _, [] => true
  | [], _ :: _ => false
  | c :: cs, p :: ps => c == p && listStartsWith cs ps

/-- Test that `pat` occurs as a contiguous sublist of the second argument. -/
def listContainsSub (pat : List Char) : List Char → Bool
  | [] => listStartsWith [] pat
  | c :: cs => listStartsWith (c :: cs) pat || listContainsSub pat cs

/-- JS `String.prototype.includes(pat)`: `pat` occurs as a substring. -/
def strContains (s pat : String) : Bool :=
  listContainsSub pat.data s.data

/-- JS `String.prototype.trim` (modelled over ASCII whitespace): strips
leading and trailing whitespace characters. -/
def jsTrim (s : String) : String :=
  ⟨((s.data.dropWhile Char.isWhitespace).reverse.dropWhile
      Char.isWhitespace).reverse⟩

/-- JS `String.prototype.toLowerCase` (modelled on ASCII letters). -/
def jsToLower (s : String) : String :=
  ⟨s.data.map Char.toLower⟩

/-- JS `String.prototype.startsWith`. -/
def jsStartsWith (s pat : String) : Bool :=
  listStartsWith s.data pat.data

/-- JS string interpolation of a possibly-absent value (an absent value
renders as the text `undefined`). -/
def showOpt (o : Option String) : String :=
  match o with
  | some s => s
  | none => "undefined"

/-- An i18n message reference: `i18n.t(key, params)`. Text rendering is
owned by the out-of-scope rendering collaborator; the core only fixes the
key and the substituted parameter values. -/
structure Msg where
  key : String
  params : List String
deriving DecidableEq, Repr

/-- Shorthand for `i18n.t(key)` with no parameters. -/
def t0 (key : String) : Msg := ⟨key, []⟩

/-- Shorthand for `i18n.t(key, ...)` with one parameter. -/
def t1 (key : String) (param : String) : Msg := ⟨key, [param]⟩

/-- Recommendation severity; the analyzers only ever construct these three
values (`severityOrder` in `prioritizeRecommendations` ranks exactly them). -/
inductive Severity where
  | HIGH
  | MEDIUM
  | LOW
deriving DecidableEq, Repr

/-- One recommendation object as pushed by the rule methods.
`details.impact` and `details.implementation` are flattened into the two
final fields. -/
structure Recommendation where
  type : String
  severity : Severity
  message : Msg
  suggestion : Msg
  impact : Msg
  implementation : List Msg
deriving DecidableEq, Repr

/-! ### Recommendation constructors

One definition per object literal pushed by a PostgreAnalyzer rule,
with the i18n keys of the source. -/

/-- Recommendation `SEQUENTIAL_SCAN` pushed by `analyzeScanMethods` for `Seq Scan` nodes. -/
def seqScanRecommendation (tableName : Option String) : Recommendation :=
  { type := "SEQUENTIAL_SCAN"
    severity := .HIGH
    message := t1 "analyzer.recommendations.sequentialScan.message" (showOpt tableName)
    suggestion := t0 "analyzer.recommendations.sequentialScan.suggestion"
    impact := t0 "analyzer.recommendations.sequentialScan.impact"
    implementation :=
      [t0 "analyzer.recommendations.sequentialScan.implementation.createIndex",
       t0 "analyzer.recommendations.sequentialScan.implementation.analyzeTable",
       t0 "analyzer.recommendations.sequentialScan.implementation.reviewWhere"] }

/-- Recommendation `INEFFICIENT_INDEX_SCAN` pushed by `analyzeScanMethods`. -/
def inefficientIndexScanRecommendation : Recommendation :=
  { type := "INEFFICIENT_INDEX_SCAN"
    severity := .MEDIUM
    message := t0 "analyzer.recommendations.inefficientIndexScan.message"
    suggestion := t0 "analyzer.recommendations.inefficientIndexScan.suggestion"
    impact := t0 "analyzer.recommendations.inefficientIndexScan.impact"
    implementation :=
      [t0 "analyzer.recommendations.inefficientIndexScan.implementation.reviewIndex",
       t0 "analyzer.recommendations.inefficientIndexScan.implementation.considerBitmap",
       t0 "analyzer.recommendations.inefficientIndexScan.implementation.checkStats"] }

/-- Recommendation `EXPENSIVE_NESTED_LOOP` pushed by `analyzeJoinOperations`. -/
def expensiveNestedLoopRecommendation : Recommendation :=
  { type := "EXPENSIVE_NESTED_LOOP"
    severity := .HIGH
    message := t0 "analyzer.recommendations.expensiveNestedLoop.message"
    suggestion := t0 "analyzer.recommendations.expensiveNestedLoop.suggestion"
    impact := t0 "analyzer.recommendations.expensiveNestedLoop.impact"
    implementation :=
      [t0 "analyzer.recommendations.expensiveNestedLoop.implementation.createIndex",
       t0 "analyzer.recommendations.expensiveNestedLoop.implementation.useHash",
       t0 "analyzer.recommendations.expensiveNestedLoop.implementation.rewriteJoin"] }

/-- Recommendation `HASH_SPILL` pushed by `analyzeJoinOperations`. -/
def hashSpillRecommendation : Recommendation :=
  { type := "HASH_SPILL"
    severity := .MEDIUM
    message := t0 "analyzer.recommendations.hashSpill.message"
    suggestion := t0 "analyzer.recommendations.hashSpill.suggestion"
    impact := t0 "analyzer.recommendations.hashSpill.impact"
    implementation :=
      [t0 "analyzer.recommendations.hashSpill.implementation.increaseMemory",
       t0 "analyzer.recommendations.hashSpill.implementation.optimizeJoin",
       t0 "analyzer.recommendations.hashSpill.implementation.partitionData"] }

/-- Recommendation `TEMP_FILES` pushed by `analyzeTemporaryStructures`. -/
def tempFilesRecommendation : Recommendation :=
  { type := "TEMP_FILES"
    severity := .HIGH
    message := t0 "analyzer.recommendations.tempFiles.message"
    suggestion := t0 "analyzer.recommendations.tempFiles.suggestion"
    impact := t0 "analyzer.recommendations.tempFiles.impact"
    implementation :=
      [t0 "analyzer.recommendations.tempFiles.implementation.increaseMemory",
       t0 "analyzer.recommendations.tempFiles.implementation.optimizeQuery",
       t0 "analyzer.recommendations.tempFiles.implementation.useIndexes"] }

/-- Recommendation `MISSING_JOIN_INDEX` pushed by `analyzeIndexUsage`. -/
def missingJoinIndexRecommendation : Recommendation :=
  { type := "MISSING_JOIN_INDEX"
    severity := .HIGH
    message := t0 "analyzer.recommendations.missingJoinIndex.message"
    suggestion := t0 "analyzer.recommendations.missingJoinIndex.suggestion"
    impact := t0 "analyzer.recommendations.missingJoinIndex.impact"
    implementation :=
      [t0 "analyzer.recommendations.missingJoinIndex.implementation.createIndex",
       t0 "analyzer.recommendations.missingJoinIndex.implementation.analyzeJoin",
       t0 "analyzer.recommendations.missingJoinIndex.implementation.considerFK"] }

/-- Recommendation `OUTDATED_STATS` pushed by `analyzeTableStatistics`. -/
def outdatedStatsRecommendation : Recommendation :=
  { type := "OUTDATED_STATS"
    severity := .MEDIUM
    message := t0 "analyzer.recommendations.outdatedStats.message"
    suggestion := t0 "analyzer.recommendations.outdatedStats.suggestion"
    impact := t0 "analyzer.recommendations.outdatedStats.impact"
    implementation :=
      [t0 "analyzer.recommendations.outdatedStats.implementation.runAnalyze",
       t0 "analyzer.recommendations.outdatedStats.implementation.autoVacuum",
       t0 "analyzer.recommendations.outdatedStats.implementation.monitoring"] }

/-- Recommendation `MISSED_PARALLEL` pushed by `analyzeParallelExecution`. -/
def missedParallelRecommendation : Recommendation :=
  { type := "MISSED_PARALLEL"
    severity := .MEDIUM
    message := t0 "analyzer.recommendations.missedParallel.message"
    suggestion := t0 "analyzer.recommendations.missedParallel.suggestion"
    impact := t0 "analyzer.recommendations.missedParallel.impact"
    implementation :=
      [t0 "analyzer.recommendations.missedParallel.implementation.enableParallel",
       t0 "analyzer.recommendations.missedParallel.implementation.adjustSettings",
       t0 "analyzer.recommendations.missedParallel.implementation.reviewQuery"] }

/-- Recommendation `INEFFECTIVE_PARTITION` pushed by `analyzePartitioning`. -/
def ineffectivePartitionRecommendation : Recommendation :=
  { type := "INEFFECTIVE_PARTITION"
    severity := .HIGH
    message := t0 "analyzer.recommendations.ineffectivePartition.message"
    suggestion := t0 "analyzer.recommendations.ineffectivePartition.suggestion"
    impact := t0 "analyzer.recommendations.ineffectivePartition.impact"
    implementation :=
      [t0 "analyzer.recommendations.ineffectivePartition.implementation.reviewStrategy",
       t0 "analyzer.recommendations.ineffectivePartition.implementation.addConstraints",
       t0 "analyzer.recommendations.ineffectivePartition.implementation.optimizeKeys"] }

/-- Recommendation `CTE_MATERIALIZATION` pushed by `analyzeCTEUsage`. -/
def cteMaterializationRecommendation : Recommendation :=
  { type := "CTE_MATERIALIZATION"
    severity := .MEDIUM
    message := t0 "analyzer.recommendations.cteMaterialization.message"
    suggestion := t0 "analyzer.recommendations.cteMaterialization.suggestion"
    impact := t0 "analyzer.recommendations.cteMaterialization.impact"
    implementation :=
      [t0 "analyzer.recommendations.cteMaterialization.implementation.materialize",
       t0 "analyzer.recommendations.cteMaterialization.implementation.analyzeUsage",
       t0 "analyzer.recommendations.cteMaterialization.implementation.considerTemp"] }

/-- Recommendation `INEFFICIENT_AGGREGATE` pushed by `analyzeAggregationOperations`. -/
def inefficientAggregateRecommendation : Recommendation :=
  { type := "INEFFICIENT_AGGREGATE"
    severity := .MEDIUM
    message := t0 "analyzer.recommendations.inefficientAggregate.message"
    suggestion := t0 "analyzer.recommendations.inefficientAggregate.suggestion"
    impact := t0 "analyzer.recommendations.inefficientAggregate.impact"
    implementation :=
      [t0 "analyzer.recommendations.inefficientAggregate.implementation.useHash",
       t0 "analyzer.recommendations.inefficientAggregate.implementation.addIndexes",
       t0 "analyzer.recommendations.inefficientAggregate.implementation.restructure"] }

/-- Recommendation `AGGREGATE_SPILL` pushed by `analyzeAggregationOperations`. -/
def aggregateSpillRecommendation : Recommendation :=
  { type := "AGGREGATE_SPILL"
    severity := .HIGH
    message := t0 "analyzer.recommendations.aggregateSpill.message"
    suggestion := t0 "analyzer.recommendations.aggregateSpill.suggestion"
    impact := t0 "analyzer.recommendations.aggregateSpill.impact"
    implementation :=
      [t0 "analyzer.recommendations.aggregateSpill.implementation.increaseWork",
       t0 "analyzer.recommendations.aggregateSpill.implementation.limitGroups",
       t0 "analyzer.recommendations.aggregateSpill.implementation.useIndexes"] }

/-- Recommendation `MISSED_MATERIALIZATION` pushed by `analyzeMaterialization`. -/
def missedMaterializationRecommendation : Recommendation :=
  { type := "MISSED_MATERIALIZATION"
    severity := .MEDIUM
    message := t0 "analyzer.recommendations.missedMaterialization.message"
    suggestion := t0 "analyzer.recommendations.missedMaterialization.suggestion"
    impact := t0 "analyzer.recommendations.missedMaterialization.impact"
    implementation :=
      [t0 "analyzer.recommendations.missedMaterialization.implementation.addMaterialize",
       t0 "analyzer.recommendations.missedMaterialization.implementation.analyzeMemory",
       t0 "analyzer.recommendations.missedMaterialization.implementation.considerCTE"] }

/-! ### PostgreSQL plan model -/

/-- The scalar fields of one PostgreSQL `EXPLAIN (FORMAT JSON)` plan node
that the rule methods read. `Node_Type` is always present in real plans
and is required; every other field may be absent. `Temporary File Usage`
and `CTE Materialized` are only ever used via JS truthiness, so they are
plain `Bool`s defaulting to `false`. -/
structure NodeInfo where
  nodeType : String
  relationName : Option String := none
  actualRows : Option Nat := none
  indexCond : Option String := none
  hashCond : Option String := none
  hashBatches : Option Nat := none
  tempFileUsage : Bool := false
  planningTime : Option Nat := none
  workersPlanned : Option Nat := none
  totalCost : Option Nat := none
  partitionsRemoved : Option Nat := none
  cteMaterialized : Bool := false
  actualLoops : Option Nat := none
  peakMemUsage : Option Nat := none
  peakMemAllowed : Option Nat := none
deriving Repr

/-- A PostgreSQL plan node: scalar fields plus the ordered `Plans`
children array. -/
inductive PGPlan : Type where
  | node (info : NodeInfo) (plans : List PGPlan)

/-- Scalar fields of a plan node. -/
def PGPlan.info : PGPlan → NodeInfo
  | .node i _ => i

/-- The `Plans` children array of a plan node. -/
def PGPlan.plans : PGPlan → List PGPlan
  | .node _ ps => ps

/-- The JSON object returned by
`EXPLAIN (FORMAT JSON, ANALYZE, VERBOSE, BUFFERS, COSTS, TIMING)`:
the `Plan` tree. -/
structure ExplainResult where
  Plan : PGPlan

/-! ### PostgreAnalyzer rule methods

Each rule method reads only scalar fields of the node it is handed, so
the embedding takes a `NodeInfo`. Each returns the list of
recommendations it pushes (in push order). -/

/-- Rule `analyzeScanMethods`: `Seq Scan` nodes, and `Index Scan` nodes with
`Actual Rows > 1000` and no `Index Cond`. -/
def analyzeScanMethods (plan : NodeInfo) : List Recommendation :=
  (if plan.nodeType == "Seq Scan" then [seqScanRecommendation plan.relationName] else []) ++
  (if plan.nodeType == "Index Scan" && jsGtNat plan.actualRows 1000 && plan.indexCond == none
   then [inefficientIndexScanRecommendation] else [])

/-- Rule `analyzeJoinOperations`: `Nested Loop` with `Actual Rows > 1000`, and
`Hash Join` with `Hash Batches > 1`. -/
def analyzeJoinOperations (plan : NodeInfo) : List Recommendation :=
  (if plan.nodeType == "Nested Loop" && jsGtNat plan.actualRows 1000
   then [expensiveNestedLoopRecommendation] else []) ++
  (if plan.nodeType == "Hash Join" && jsGtNat plan.hashBatches 1
   then [hashSpillRecommendation] else [])

/-- Rule `analyzeTemporaryStructures`: truthy `Temporary File Usage`. -/
def analyzeTemporaryStructures (plan : NodeInfo) : List Recommendation :=
  if plan.tempFileUsage then [tempFilesRecommendation] else []

/-- A row of the `pg_stat_user_tables` statistics query. -/
structure PGTableStat where
  schemaname : String
  table_name : String
  table_rows : Nat
  total_bytes : Nat
  index_bytes : Nat
deriving DecidableEq, Repr

/-- A row of the `pg_indexes` query. -/
structure PGIndexRow where
  schemaname : String
  table_name : String
  index_name : String
  index_definition : String
deriving DecidableEq, Repr

/-- Rule `analyzeIndexUsage`: on a `Hash Join` node the source evaluates
`!plan['Hash Cond'].includes('=')`; when `Hash Cond` is absent this is a
JS `TypeError`, modelled as `.error ()`. The `indexes` argument is
accepted but never read, exactly as in the source. -/
def analyzeIndexUsage (plan : NodeInfo) (_indexes : List PGIndexRow) :
    Except Unit (List Recommendation) :=
  if plan.nodeType == "Hash Join" then
    match plan.hashCond with
    | none => .error ()
    | some cond =>
        if !(strContains cond "=") then .ok [missingJoinIndexRecommendation] else .ok []
  else .ok []

/-- Rule `analyzeTableStatistics` (PostgreAnalyzer): only checks
`Planning Time > 1000` on the node; the `tableStats` argument is accepted
but never read, exactly as in the source. -/
def analyzeTableStatistics (plan : NodeInfo) (_tableStats : List PGTableStat) :
    List Recommendation :=
  if jsGtNat plan.planningTime 1000 then [outdatedStatsRecommendation] else []

/-- Rule `analyzeParallelExecution`: falsy `Workers Planned` with
`Total Cost > 100000`. -/
def analyzeParallelExecution (plan : NodeInfo) : List Recommendation :=
  if jsFalsyNat plan.workersPlanned && jsGtNat plan.totalCost 100000
  then [missedParallelRecommendation] else []

/-- Rule `analyzePartitioning`: `Partitions Removed === 0` and a node type
containing `Partition`. -/
def analyzePartitioning (plan : NodeInfo) : List Recommendation :=
  if plan.partitionsRemoved == some 0 && strContains plan.nodeType "Partition"
  then [ineffectivePartitionRecommendation] else []

/-- Rule `analyzeCTEUsage`: a `CTE Scan` with `Actual Rows > 1` that is not
materialized. -/
def analyzeCTEUsage (plan : NodeInfo) : List Recommendation :=
  if plan.nodeType == "CTE Scan" && jsGtNat plan.actualRows 1 && !plan.cteMaterialized
  then [cteMaterializationRecommendation] else []

/-- Rule `analyzeAggregationOperations`: `Group Aggregate` with
`Actual Rows > 1000`, and `Hash Aggregate` whose `Peak Memory Usage`
exceeds `Peak Memory Allowed`. -/
def analyzeAggregationOperations (plan : NodeInfo) : List Recommendation :=
  (if plan.nodeType == "Group Aggregate" && jsGtNat plan.actualRows 1000
   then [inefficientAggregateRecommendation] else []) ++
  (if plan.nodeType == "Hash Aggregate" && jsGtOpt plan.peakMemUsage plan.peakMemAllowed
   then [aggregateSpillRecommendation] else [])

/-- Rule `analyzeMaterialization`: `Actual Loops > 1` on a node that is not a
`Materialize`. -/
def analyzeMaterialization (plan : NodeInfo) : List Recommendation :=
  if jsGtNat plan.actualLoops 1 && plan.nodeType != "Materialize"
  then [missedMaterializationRecommendation] else []

/-! ### prioritizeRecommendations (PostgreAnalyzer)

The source sorts with `Array.prototype.sort(comparator)`, which is a
stable sort (ECMAScript 2019). `recCompare` is the literal comparator;
the output of any stable sort under a comparator of this key-based shape
is uniquely determined, and is modelled by `List.insertionSort` under the
total preorder `recCompare a b ≤ 0` (Mathlib's `insertionSort` is stable
for a total preorder). -/

/-- Table `severityOrder` from `prioritizeRecommendations`: HIGH 0, MEDIUM 1,
LOW 2. -/
def severityOrder : Severity → Nat
  | .HIGH => 0
  | .MEDIUM => 1
  | .LOW => 2

/-- Table `priorityTypes` from `prioritizeRecommendations` (PostgreAnalyzer). -/
def priorityTypes : List String :=
  ["SEQUENTIAL_SCAN", "EXPENSIVE_NESTED_LOOP", "TEMP_FILES",
   "MISSING_JOIN_INDEX", "INEFFECTIVE_PARTITION", "AGGREGATE_SPILL"]

/-- JS `Array.prototype.indexOf`: index of the first occurrence, `-1` when
absent. -/
def jsIndexOf (l : List String) (t : String) : Int :=
  match l with
  | [] => -1
  | s :: rest =>
      if s == t then 0
      else
        let r := jsIndexOf rest t
        if r = -1 then -1 else r + 1

/-- Stand-in for the JS `Infinity` used by the comparator for types absent
from `priorityTypes`. Only its order relative to the real indexes (all
below the list length) matters, so any value larger than every index is
an exact model. -/
def jsInfinity : Int := 1000000

/-- The comparator passed to `recommendations.sort`: severity rank first,
then position in `priorityTypes` with `-1` (absent) mapped to `Infinity`,
else `0`. -/
def recCompare (a b : Recommendation) : Int :=
  if severityOrder a.severity ≠ severityOrder b.severity then
    (severityOrder a.severity : Int) - (severityOrder b.severity : Int)
  else
    let aP := jsIndexOf priorityTypes a.type
    let bP := jsIndexOf priorityTypes b.type
    if aP ≠ bP then
      (if aP = -1 then jsInfinity else aP) - (if bP = -1 then jsInfinity else bP)
    else 0

/-- Relation stating `a` may be placed at or before `b` by the sort: the comparator does
not order `a` strictly after `b`. -/
def recLe (a b : Recommendation) : Prop := recCompare a b ≤ 0

instance : DecidableRel recLe := fun a b =>
  inferInstanceAs (Decidable (recCompare a b ≤ 0))

/-- The secondary sort rank of a recommendation type: its position in
`priorityTypes`, or `Infinity` when absent (exactly the value the
comparator subtracts). -/
def typeRankInt (t : String) : Int :=
  let p := jsIndexOf priorityTypes t
  if p = -1 then jsInfinity else p

/-- The two-component sort key induced by the comparator. -/
def keyOf (r : Recommendation) : Int × Int :=
  ((severityOrder r.severity : Int), typeRankInt r.type)

/-- Lexicographic order on sort keys. -/
def pairLe (p q : Int × Int) : Prop :=
  p.1 < q.1 ∨ (p.1 = q.1 ∧ p.2 ≤ q.2)

/-- Method `prioritizeRecommendations`: stable sort of the collected
recommendations under the source comparator. -/
def prioritizeRecommendations (recommendations : List Recommendation) :
    List Recommendation :=
  List.insertionSort recLe recommendations

/-! ### generateRecommendations and plan traversal (PostgreAnalyzer) -/

/-- Method `generateRecommendations`: applies the ten rule methods, in source
order, to `explainResult.Plan` — the root node only — inside one
`try`/`catch`. A falsy `explainResult` returns the (empty) list
immediately. The only rule that can throw is `analyzeIndexUsage`
(absent `Hash Cond` on a `Hash Join`); when it throws, the remaining
rules are skipped and the recommendations already collected are still
prioritized and returned. -/
def generateRecommendations (explainResult : Option ExplainResult)
    (tableStats : List PGTableStat) (indexes : List PGIndexRow) :
    List Recommendation :=
  match explainResult with
  | none => []
  | some er =>
    let plan := er.Plan.info
    let collected :=
      analyzeScanMethods plan ++ analyzeJoinOperations plan ++
        analyzeTemporaryStructures plan
    match analyzeIndexUsage plan indexes with
    | .error _ => prioritizeRecommendations collected
    | .ok r4 =>
        prioritizeRecommendations
          (collected ++ r4 ++ analyzeTableStatistics plan tableStats ++
            analyzeParallelExecution plan ++ analyzePartitioning plan ++
            analyzeCTEUsage plan ++ analyzeAggregationOperations plan ++
            analyzeMaterialization plan)

/-- The three rule methods invoked by `analyzePlanNode` at each node. -/
def planNodeRules (info : NodeInfo) : List Recommendation :=
  analyzeScanMethods info ++ analyzeJoinOperations info ++
    analyzeTemporaryStructures info

mutual
/-- Helper `analyzePlanNode`: the (never-invoked) recursive helper. Applies
`analyzeScanMethods`, `analyzeJoinOperations` and
`analyzeTemporaryStructures` to the node, then recurses into `Plans` in
order. -/
def analyzePlanNode : PGPlan → List Recommendation
  | .node info plans => planNodeRules info ++ analyzePlanForest plans

/-- Recommendations of `node.Plans.forEach(child => analyzePlanNode(child))`. -/
def analyzePlanForest : List PGPlan → List Recommendation
  | [] => []
  | p :: ps => analyzePlanNode p ++ analyzePlanForest ps
end

mutual
/-- Depth-first pre-order listing of the scalar fields of every node of a
plan tree. -/
def preorderNodes : PGPlan → List NodeInfo
  | .node info plans => info :: preorderForest plans

/-- Pre-order listing of a forest, left to right. -/
def preorderForest : List PGPlan → List NodeInfo
  | [] => []
  | p :: ps => preorderNodes p ++ preorderForest ps
end

/-! ### The analyze coordinator (PostgreAnalyzer.analyze) -/

/-- Outcomes of the four external database interactions of one `analyze`
call: `pool.connect()`, the `EXPLAIN` query, the `pg_stat_user_tables`
query and the `pg_indexes` query. An `Except.error` is the rejection
message of the corresponding `await`. -/
structure DbSession where
  connectOutcome : Except String Unit
  planOutcome : Except String ExplainResult
  statsOutcome : Except String (List PGTableStat)
  indexesOutcome : Except String (List PGIndexRow)

/-- The object returned by a successful `analyze` call. -/
structure AnalysisResult where
  query : String
  executionPlan : ExplainResult
  tableStatistics : List PGTableStat
  indexes : List PGIndexRow
  recommendations : List Recommendation

/-- Resource events on the pooled client: `acquire` for
`client = await pool.connect()`, `release` for the `client.release()` in
the `finally` block. -/
inductive ResEvent where
  | acquire
  | release
deriving DecidableEq, Repr

/-- Result and resource-event trace of one `analyze` call. -/
structure AnalyzeOutcome where
  result : Except String AnalysisResult
  events : List ResEvent

/-- A metadata query result, with the `catch` branch that logs a warning
and leaves the collection empty. -/
def orEmpty {α : Type} (e : Except String (List α)) : List α :=
  match e with
  | .ok l => l
  | .error _ => []

/-- The body of the `try` block of `analyze` after the client has been
connected: validation, plan retrieval (fatal on failure), the two
non-fatal metadata queries, recommendation generation, and assembly of
the result object. -/
def analyzeBody (query : String) (db : DbSession) :
    Except String AnalysisResult :=
  if query = "" then .error "Invalid query provided"
  else
    let trimmedQuery := jsTrim query
    if trimmedQuery = "" then .error "Empty query provided"
    else if !(jsStartsWith (jsToLower trimmedQuery) "select") then
      .error "Only SELECT queries can be analyzed"
    else
      match db.planOutcome with
      | .error e => .error ("Failed to get execution plan: " ++ e)
      | .ok explainResult =>
          let tableStats := orEmpty db.statsOutcome
          let indexes := orEmpty db.indexesOutcome
          .ok { query := trimmedQuery
                executionPlan := explainResult
                tableStatistics := tableStats
                indexes := indexes
                recommendations :=
                  generateRecommendations (some explainResult) tableStats indexes }

/-- Method `PostgreAnalyzer.analyze`: connects a pooled client, runs the body,
wraps any thrown message in the outer `catch` as
`PostgreSQL Analysis Error: ...`, and releases the client in the
`finally` block whenever it was acquired (the `finally` guard
`if (client)` skips the release when `pool.connect()` itself rejected). -/
def analyze (query : String) (db : DbSession) : AnalyzeOutcome :=
  match db.connectOutcome with
  | .error e =>
      { result := .error ("PostgreSQL Analysis Error: " ++ e), events := [] }
  | .ok _ =>
      let r :=
        match analyzeBody query db with
        | .ok a => .ok a
        | .error m => .error ("PostgreSQL Analysis Error: " ++ m)
      { result := r, events := [.acquire, .release] }

/-- The final error corresponds to the spec's `InvalidQueryError`
(empty/blank input: the source messages `Invalid query provided` and
`Empty query provided`, wrapped by the outer catch). -/
def isInvalidQueryError (r : Except String AnalysisResult) : Prop :=
  r = .error "PostgreSQL Analysis Error: Invalid query provided" ∨
    r = .error "PostgreSQL Analysis Error: Empty query provided"

/-- The final error corresponds to the spec's `UnsupportedQueryError`
(non-SELECT statement). -/
def isUnsupportedQueryError (r : Except String AnalysisResult) : Prop :=
  r = .error "PostgreSQL Analysis Error: Only SELECT queries can be analyzed"

/-! ### MySQL analyzer (mysqlAnalyzer.js): statistics-driven rule -/

/-- One `EXPLAIN` row of the MySQL analyzer (flat plan representation).
Only the fields read by the embedded rules are listed. -/
structure MySQLRow where
  type : Option String := none
  table : Option String := none
  rows : Option Nat := none
deriving Repr

/-- A row of the `information_schema.tables` statistics query. -/
structure MySQLTableStat where
  table_name : String
  table_rows : Nat
  data_length : Nat
  index_length : Nat
deriving DecidableEq, Repr

/-- Recommendation `LARGE_TABLE_SCAN` pushed by the MySQL `analyzeTableStatistics`, with
the row count substituted into the message. -/
def largeTableScanRecommendation (rows : Nat) : Recommendation :=
  { type := "LARGE_TABLE_SCAN"
    severity := .HIGH
    message := t1 "analyzer.recommendations.largeTableScan.message" (toString rows)
    suggestion := t0 "analyzer.recommendations.largeTableScan.suggestion"
    impact := t0 "analyzer.recommendations.largeTableScan.impact"
    implementation :=
      [t0 "analyzer.recommendations.largeTableScan.implementation.addIndexes",
       t0 "analyzer.recommendations.largeTableScan.implementation.partition",
       t0 "analyzer.recommendations.largeTableScan.implementation.optimize"] }

/-- Recommendation `HIGH_INDEX_RATIO` pushed by the MySQL `analyzeTableStatistics`. -/
def highIndexRatioRecommendation : Recommendation :=
  { type := "HIGH_INDEX_RATIO"
    severity := .LOW
    message := t0 "analyzer.recommendations.highIndexRatio.message"
    suggestion := t0 "analyzer.recommendations.highIndexRatio.suggestion"
    impact := t0 "analyzer.recommendations.highIndexRatio.impact"
    implementation :=
      [t0 "analyzer.recommendations.highIndexRatio.implementation.review",
       t0 "analyzer.recommendations.highIndexRatio.implementation.remove",
       t0 "analyzer.recommendations.highIndexRatio.implementation.covering"] }

/-- The source condition `index_length / data_length > 0.5` on the byte
counts. Over the integers this is exactly `2 * index_length >
data_length`, including the `data_length = 0` cases (JS yields
`Infinity > 0.5`, true, when `index_length > 0`, and `NaN > 0.5`, false,
when both are `0`). -/
def indexRatioExceedsHalf (index_length data_length : Nat) : Bool :=
  2 * index_length > data_length

/-- MySQL `analyzeTableStatistics`: bails out on an empty statistics
list, finds the first statistic whose `table_name` strictly equals the
row's `table` field, then checks the large-scan and index-ratio
conditions, pushing in that order. -/
def mysqlAnalyzeTableStatistics (explainResult : MySQLRow)
    (tableStats : List MySQLTableStat) : List Recommendation :=
  if tableStats.isEmpty then []
  else
    match tableStats.find? (fun stat => some stat.table_name == explainResult.table) with
    | none => []
    | some relevantTableStat =>
        (if relevantTableStat.table_rows > 10000 && explainResult.type == some "ALL"
         then [largeTableScanRecommendation relevantTableStat.table_rows] else []) ++
        (if indexRatioExceedsHalf relevantTableStat.index_length
            relevantTableStat.data_length
         then [highIndexRatioRecommendation] else [])

/-! ### Plan normalizer, modelled from the spec (§4.1)

The repository contains no normalization code: the rule methods read
native plan fields directly, and no `MalformedPlanError` exists in the
source. The definitions below follow the specification's contract for
the missing component. -/

/-- Modelled from the spec: the closed engine-neutral `nodeKind` enum of
the PlanNode model (§3); unknown native types map to `OTHER`. -/
inductive NodeKind where
  | TABLE_SCAN
  | INDEX_SCAN
  | NESTED_LOOP_JOIN
  | HASH_JOIN
  | SORT
  | AGGREGATE
  | MATERIALIZE
  | CTE_SCAN
  | PARTITION_SCAN
  | SUBQUERY
  | OTHER
deriving DecidableEq, Repr

/-- Modelled from the spec: a native plan payload, as seen by the missing
normalizer. `nodeTypeField` is the recognizable node-type field (absent
when the payload is malformed); `otherFields` holds every other field as
uninterpreted key/value data; `children` are the nested sub-plan
entries, in order. -/
inductive NativePayload : Type where
  | node (nodeTypeField : Option String) (otherFields : List (String × String))
      (children : List NativePayload)

/-- Modelled from the spec: the unified engine-agnostic PlanNode tree
produced by normalization (§3, with the flag set reduced to the fields
needed here; flags default to false/absent). -/
inductive SpecPlanNode : Type where
  | node (nodeKind : NodeKind) (relationName : Option String)
      (usesTemporaryStructure : Bool) (children : List SpecPlanNode)

/-- Modelled from the spec: the error raised when a native payload lacks
a recognizable node-type field. -/
inductive NormError where
  | MalformedPlanError
deriving DecidableEq, Repr

/-- Modelled from the spec: mapping of source-engine node-type strings
onto the closed `nodeKind` enum; unknown strings map to `OTHER` rather
than failing. -/
def mapNodeKind (s : String) : NodeKind :=
  if s == "Seq Scan" || s == "ALL" then .TABLE_SCAN
  else if s == "Index Scan" then .INDEX_SCAN
  else if s == "Nested Loop" then .NESTED_LOOP_JOIN
  else if s == "Hash Join" then .HASH_JOIN
  else if s == "Sort" then .SORT
  else if s == "Group Aggregate" || s == "Hash Aggregate" then .AGGREGATE
  else if s == "Materialize" then .MATERIALIZE
  else if s == "CTE Scan" then .CTE_SCAN
  else .OTHER

mutual
/-- Modelled from the spec: `normalize(nativePlanPayload) → PlanNode`
(§4.1). Fails with `MalformedPlanError` exactly when a payload node lacks
the recognizable node-type field; every other field either maps through a
total lookup or defaults, so unknown/unexpected values of other fields
never fail. -/
def normalizePlan : NativePayload → Except NormError SpecPlanNode
  | .node none _ _ => .error .MalformedPlanError
  | .node (some t) otherFields children =>
      match normalizePlanList children with
      | .error e => .error e
      | .ok cs =>
          .ok (.node (mapNodeKind t)
            (List.lookup "relationName" otherFields)
            (List.lookup "usesTemporaryStructure" otherFields == some "true")
            cs)

/-- Modelled from the spec: normalization of the nested sub-plan entries,
preserving order. -/
def normalizePlanList : List NativePayload → Except NormError (List SpecPlanNode)
  | [] => .ok []
  | p :: ps =>
      match normalizePlan p with
      | .error e => .error e
      | .ok n =>
          match normalizePlanList ps with
          | .error e => .error e
          | .ok ns => .ok (n :: ns)
end

mutual
/-- Every node of a native payload carries the node-type field. -/
def allTyped : NativePayload → Bool
  | .node nodeTypeField _ children => nodeTypeField.isSome && allTypedList children

/-- Predicate `allTyped` over a list of payloads. -/
def allTypedList : List NativePayload → Bool
  | [] => true
  | p :: ps => allTyped p && allTypedList ps
end

/-! ### Order-theoretic facts about the comparator -/

theorem pairLe_refl (p : Int × Int) : pairLe p p := Or.inr ⟨rfl, le_refl _⟩

theorem pairLe_trans {p q r : Int × Int} (h₁ : pairLe p q) (h₂ : pairLe q r) :
    pairLe p r := by
  rcases p with ⟨p1, p2⟩
  rcases q with ⟨q1, q2⟩
  rcases r with ⟨r1, r2⟩
  unfold pairLe at h₁ h₂ ⊢
  dsimp only at h₁ h₂ ⊢
  omega

theorem pairLe_total (p q : Int × Int) : pairLe p q ∨ pairLe q p := by
  rcases p with ⟨p1, p2⟩
  rcases q with ⟨q1, q2⟩
  unfold pairLe
  dsimp only
  omega

/-- The sort relation induced by the comparator is exactly the
lexicographic order on the (severity rank, type rank) keys. -/
theorem recLe_iff_pairLe (a b : Recommendation) :
    recLe a b ↔ pairLe (keyOf a) (keyOf b) := by
  unfold recLe recCompare keyOf typeRankInt pairLe
  dsimp only
  split_ifs <;> omega

instance : IsTotal Recommendation recLe :=
  ⟨fun a b => by
    rcases pairLe_total (keyOf a) (keyOf b) with h | h
    · exact Or.inl ((recLe_iff_pairLe a b).mpr h)
    · exact Or.inr ((recLe_iff_pairLe b a).mpr h)⟩

instance : IsTrans Recommendation recLe :=
  ⟨fun a b c hab hbc =>
    (recLe_iff_pairLe a c).mpr
      (pairLe_trans ((recLe_iff_pairLe a b).mp hab) ((recLe_iff_pairLe b c).mp hbc))⟩

theorem keyOf_ne_of_not_recLe {x b : Recommendation} (h : ¬recLe x b) :
    keyOf x ≠ keyOf b := by
  intro he
  exact h ((recLe_iff_pairLe x b).mpr (he ▸ pairLe_refl (keyOf x)))

/-- Inserting `x` keeps every equal-key block in order, with `x` placed
before the equal-key elements of `l` (which all came later in the input
during an insertion sort). -/
theorem filter_key_orderedInsert (x : Recommendation) (l : List Recommendation)
    (k : Int × Int) :
    (List.orderedInsert recLe x l).filter (fun r => keyOf r == k) =
      if keyOf x == k then x :: l.filter (fun r => keyOf r == k)
      else l.filter (fun r => keyOf r == k) := by
  induction l with
  | nil => simp [List.orderedInsert, List.filter_cons]
  | cons b bs ih =>
    by_cases hle : recLe x b
    · simp [List.orderedInsert, hle, List.filter_cons]
    · have hne : keyOf x ≠ keyOf b := keyOf_ne_of_not_recLe hle
      simp only [List.orderedInsert, if_neg hle, List.filter_cons, ih]
      by_cases hxk : keyOf x = k
      · have hbk : (keyOf b == k) = false := by
          simp only [beq_eq_false_iff_ne]
          exact fun hbkeq => hne (hxk ▸ hbkeq ▸ rfl)
        simp [hxk, hbk]
      · simp [hxk]

/-- Stability of `prioritizeRecommendations`: for every sort key, the
subsequence of recommendations carrying that key is unchanged. -/
theorem filter_key_insertionSort (l : List Recommendation) (k : Int × Int) :
    (List.insertionSort recLe l).filter (fun r => keyOf r == k) =
      l.filter (fun r => keyOf r == k) := by
  induction l with
  | nil => rfl
  | cons x xs ih =>
    rw [List.insertionSort, filter_key_orderedInsert, ih, List.filter_cons]

/-- JS `indexOf` returns `-1` exactly for elements not in the list. -/
theorem jsIndexOf_eq_neg_one_of_not_mem (l : List String) (t : String)
    (h : t ∉ l) : jsIndexOf l t = -1 := by
  induction l with
  | nil => rfl
  | cons s rest ih =>
    have hs : (s == t) = false := by
      simp only [beq_eq_false_iff_ne]
      exact fun he => h (he ▸ List.mem_cons_self s rest)
    have hr : jsIndexOf rest t = -1 := ih (fun hm => h (List.mem_cons_of_mem s hm))
    simp [jsIndexOf, hs, hr]

/-! ### Traversal and normalizer lemmas -/

mutual
/-- Helper `analyzePlanNode` produces exactly the concatenation, over the
depth-first pre-order node listing, of its three rule methods. -/
theorem analyzePlanNode_eq_preorder (p : PGPlan) :
    analyzePlanNode p = ((preorderNodes p).map planNodeRules).flatten := by
  match p with
  | .node info plans =>
      rw [analyzePlanNode, preorderNodes, List.map_cons, List.flatten_cons,
        analyzePlanForest_eq_preorder plans]

/-- Forest version of `analyzePlanNode_eq_preorder`. -/
theorem analyzePlanForest_eq_preorder (ps : List PGPlan) :
    analyzePlanForest ps = ((preorderForest ps).map planNodeRules).flatten := by
  match ps with
  | [] => rfl
  | p :: rest =>
      rw [analyzePlanForest, preorderForest, List.map_append, List.flatten_append,
        analyzePlanNode_eq_preorder p, analyzePlanForest_eq_preorder rest]
end

mutual
/-- When every node of the payload carries the node-type field,
normalization succeeds, whatever the other fields hold. -/
theorem normalizePlan_ok_of_allTyped (p : NativePayload) (h : allTyped p = true) :
    (normalizePlan p).isOk = true := by
  match p with
  | .node none otherFields children =>
      rw [allTyped] at h
      simp at h
  | .node (some t) otherFields children =>
      rw [allTyped] at h
      simp only [Option.isSome_some, Bool.true_and] at h
      have hl := normalizePlanList_ok_of_allTyped children h
      rw [normalizePlan]
      match hres : normalizePlanList children with
      | .error e => rw [hres] at hl; simp [Except.isOk, Except.toBool] at hl
      | .ok cs => simp [Except.isOk, Except.toBool]

/-- List version of `normalizePlan_ok_of_allTyped`. -/
theorem normalizePlanList_ok_of_allTyped (ps : List NativePayload)
    (h : allTypedList ps = true) : (normalizePlanList ps).isOk = true := by
  match ps with
  | [] => rfl
  | p :: rest =>
      rw [allTypedList, Bool.and_eq_true] at h
      have h1 := normalizePlan_ok_of_allTyped p h.1
      have h2 := normalizePlanList_ok_of_allTyped rest h.2
      rw [normalizePlanList]
      match hp : normalizePlan p with
      | .error e => rw [hp] at h1; simp [Except.isOk, Except.toBool] at h1
      | .ok n =>
          match hr : normalizePlanList rest with
          | .error e => rw [hr] at h2; simp [Except.isOk, Except.toBool] at h2
          | .ok ns => simp [Except.isOk, Except.toBool]
end

/-! ### Concrete sample values used by counterexamples and witnesses -/

/-- A `Seq Scan` child node on table `orders`. -/
def seqScanChildInfo : NodeInfo :=
  { nodeType := "Seq Scan", relationName := some "orders" }

/-- A root node that triggers no rule. -/
def quietRootInfo : NodeInfo := { nodeType := "Limit" }

/-- A plan whose root triggers nothing and whose only child is a
`Seq Scan` that triggers `analyzeScanMethods`. -/
def quietRootSeqScanChildPlan : ExplainResult :=
  ⟨.node quietRootInfo [.node seqScanChildInfo []]⟩

/-- The two-level end-to-end plan of the spec: root `Hash Join` with
`Hash Batches = 2` (and an equality hash condition), single `Seq Scan`
child. -/
def twoLevelPlan : ExplainResult :=
  ⟨.node { nodeType := "Hash Join", hashBatches := some 2,
           hashCond := some "(a.id = b.id)" }
    [.node seqScanChildInfo []]⟩

/-- A root `Hash Join` whose `Hash Cond` is absent, making
`analyzeIndexUsage` throw. -/
def hashJoinNoCondPlan : ExplainResult :=
  ⟨.node { nodeType := "Hash Join", hashBatches := some 2 } []⟩

/-- A session whose connection succeeds but whose plan query rejects. -/
def sampleDb : DbSession :=
  ⟨.ok (), .error "connection refused", .ok [], .ok []⟩

/-- A one-node explain result used by the coordinator witnesses. -/
def sampleExplain : ExplainResult := ⟨.node seqScanChildInfo []⟩

/-- A session in which both metadata queries reject but the plan query
succeeds. -/
def sampleDbMetaDown : DbSession :=
  ⟨.ok (), .ok sampleExplain, .error "stats down", .error "indexes down"⟩

/-- The MySQL EXPLAIN row of the spec's statistics example: a full table
scan of `orders`. -/
def ordersRow : MySQLRow := { type := some "ALL", table := some "orders" }

/-- The table statistic of the spec's statistics example. -/
def ordersStat : MySQLTableStat := ⟨"orders", 50000, 1000000, 600000⟩

/-- A payload with an unknown node type and unexpected other fields, but
typed at every node. -/
def weirdPayload : NativePayload :=
  .node (some "Weird Node") [("foo", "bar"), ("flag", "??")]
    [.node (some "Seq Scan") [] []]

/-! ### Claim theorems -/

/-- Claim C1, counterexample: in the concrete plan
`quietRootSeqScanChildPlan` the trigger condition of the sequential-scan
rule holds at the non-root child (`analyzeScanMethods` fires on it), yet
the recommendation engine returns the empty list: `generateRecommendations`
never visits the child, so the child's recommendation is absent from the
output, refuting the claim. -/
theorem C1_counterexample :
    generateRecommendations (some quietRootSeqScanChildPlan) [] [] = [] ∧
    analyzeScanMethods seqScanChildInfo = [seqScanRecommendation (some "orders")] ∧
    seqScanRecommendation (some "orders") ∉
      generateRecommendations (some quietRootSeqScanChildPlan) [] [] := by
  refine ⟨rfl, rfl, ?_⟩
  intro hmem
  rw [show generateRecommendations (some quietRootSeqScanChildPlan) [] [] =
    ([] : List Recommendation) from rfl] at hmem
  exact List.not_mem_nil _ hmem

/-- Claim C1, amended: the recommendation engine applies the rule catalog
to the root node only — its output does not depend on the children at all
— while the separate helper `analyzePlanNode` (which `generateRecommendations`
never invokes) does visit every node exactly once in depth-first
pre-order, but applies only the scan, join, and temporary-structure
rules at each visited node. -/
theorem C1_amended_root_only_engine :
    (∀ (info : NodeInfo) (plans plans' : List PGPlan)
       (tableStats : List PGTableStat) (indexes : List PGIndexRow),
       generateRecommendations (some ⟨.node info plans⟩) tableStats indexes =
         generateRecommendations (some ⟨.node info plans'⟩) tableStats indexes) ∧
    (∀ p : PGPlan,
       analyzePlanNode p = ((preorderNodes p).map planNodeRules).flatten) :=
  ⟨fun _ _ _ _ _ => rfl, analyzePlanNode_eq_preorder⟩

/-- Claim C2, counterexample: on the two-level plan (root hash join with
`hashBatches = 2`, child full table scan) the pipeline's output is not
the claimed two-element list — neither with the claimed `TABLE_SCAN` type
nor with the engine's `SEQUENTIAL_SCAN` full-scan type — because the
child's full-scan finding is never produced. -/
theorem C2_counterexample :
    (generateRecommendations (some twoLevelPlan) [] []).map
        (fun r => (r.type, r.severity)) ≠
      [("TABLE_SCAN", Severity.HIGH), ("HASH_SPILL", Severity.MEDIUM)] ∧
    (generateRecommendations (some twoLevelPlan) [] []).map
        (fun r => (r.type, r.severity)) ≠
      [("SEQUENTIAL_SCAN", Severity.HIGH), ("HASH_SPILL", Severity.MEDIUM)] := by
  decide

/-- Claim C2, amended: evaluating and prioritizing the two-level plan
yields exactly `[HASH_SPILL (MEDIUM)]`; the full-scan finding for the
child is absent because the engine analyzes the root node only. -/
theorem C2_amended_hash_spill_only :
    generateRecommendations (some twoLevelPlan) [] [] = [hashSpillRecommendation] ∧
    hashSpillRecommendation.type = "HASH_SPILL" ∧
    hashSpillRecommendation.severity = Severity.MEDIUM := by
  decide

/-- Claim C5: `prioritizeRecommendations` returns a permutation of its
input, sorted by severity rank (HIGH, MEDIUM, LOW ascending) and then by
position in the fixed `priorityTypes` list; every type absent from that
list ranks `Infinity`, after all listed types; the sort is stable (each
equal-key subsequence is preserved verbatim), and a singleton is returned
unchanged. -/
theorem C5_prioritize_sorted_stable :
    (∀ l : List Recommendation,
       (prioritizeRecommendations l).Perm l ∧
       List.Pairwise (fun a b => pairLe (keyOf a) (keyOf b))
         (prioritizeRecommendations l) ∧
       (∀ k : Int × Int,
          (prioritizeRecommendations l).filter (fun r => keyOf r == k) =
            l.filter (fun r => keyOf r == k))) ∧
    (∀ t, t ∉ priorityTypes → typeRankInt t = jsInfinity) ∧
    (∀ t' ∈ priorityTypes, typeRankInt t' < jsInfinity) ∧
    (∀ x : Recommendation, prioritizeRecommendations [x] = [x]) := by
  refine ⟨fun l => ⟨List.perm_insertionSort recLe l, ?_, fun k => filter_key_insertionSort l k⟩,
    ?_, ?_, fun x => rfl⟩
  · exact (List.sorted_insertionSort recLe l).imp
      (fun h => (recLe_iff_pairLe _ _).mp h)
  · intro t ht
    have : jsIndexOf priorityTypes t = -1 := jsIndexOf_eq_neg_one_of_not_mem _ _ ht
    simp [typeRankInt, this]
  · intro t' ht'
    fin_cases ht' <;> decide

/-- Claim C5, witness: concrete instances — a type absent from
`priorityTypes` ranks `Infinity`, a listed type ranks below `Infinity`,
a singleton is returned unchanged, and the singleton output is a
permutation of the input. -/
theorem C5_prioritize_sorted_stable_witness :
    typeRankInt "HASH_SPILL" = jsInfinity ∧
    typeRankInt "SEQUENTIAL_SCAN" < jsInfinity ∧
    prioritizeRecommendations [hashSpillRecommendation] = [hashSpillRecommendation] ∧
    (prioritizeRecommendations [hashSpillRecommendation]).Perm
      [hashSpillRecommendation] :=
  ⟨C5_prioritize_sorted_stable.2.1 "HASH_SPILL" (by decide),
   C5_prioritize_sorted_stable.2.2.1 "SEQUENTIAL_SCAN" (by decide),
   C5_prioritize_sorted_stable.2.2.2 hashSpillRecommendation,
   (C5_prioritize_sorted_stable.1 [hashSpillRecommendation]).1⟩

/-- Claim C6, counterexample: the source sorts the caller's array in
place (`Array.prototype.sort`), so after the call the caller's list holds
the sorted order; for a MEDIUM recommendation followed by a HIGH one the
sorted order differs from the original order, so the input list is not
left unmodified. -/
theorem C6_counterexample :
    prioritizeRecommendations
        [hashSpillRecommendation, seqScanRecommendation (some "orders")] =
      [seqScanRecommendation (some "orders"), hashSpillRecommendation] ∧
    [seqScanRecommendation (some "orders"), hashSpillRecommendation] ≠
      [hashSpillRecommendation, seqScanRecommendation (some "orders")] := by
  decide

/-- Claim C6, amended: `prioritizeRecommendations` is total (it never
raises) and the caller's array still holds exactly the same elements
after the call — as a permutation in sorted order, not necessarily in
their original order, because the JS sort is in place. -/
theorem C6_amended_prioritize_perm :
    ∀ l : List Recommendation, (prioritizeRecommendations l).Perm l :=
  fun l => List.perm_insertionSort recLe l

/-- Claim C3: whenever the connection is established, `analyze` fails
with the `InvalidQueryError`-class error on an empty or whitespace-only
query text, and with the `UnsupportedQueryError`-class error when the
trimmed text does not start (case-insensitively) with `select`. -/
theorem C3_validation_errors (q : String) (db : DbSession)
    (hc : db.connectOutcome = Except.ok ()) :
    (jsTrim q = "" → isInvalidQueryError (analyze q db).result) ∧
    (jsTrim q ≠ "" → jsStartsWith (jsToLower (jsTrim q)) "select" = false →
      isUnsupportedQueryError (analyze q db).result) := by
  constructor
  · intro ht
    by_cases hq : q = ""
    · subst hq
      simp [analyze, hc, analyzeBody, isInvalidQueryError]
    · simp [analyze, hc, analyzeBody, hq, ht, isInvalidQueryError]
  · intro ht hsw
    have hq : q ≠ "" := by
      intro h
      exact ht (by rw [h]; rfl)
    simp [analyze, hc, analyzeBody, hq, ht, hsw, isUnsupportedQueryError]

/-- Claim C3, witness: the three concrete calls of the claim, against a
session with a working connection. -/
theorem C3_validation_errors_witness :
    isInvalidQueryError (analyze "" sampleDb).result ∧
    isInvalidQueryError (analyze "   " sampleDb).result ∧
    isUnsupportedQueryError (analyze "UPDATE t SET x=1" sampleDb).result :=
  ⟨(C3_validation_errors "" sampleDb rfl).1 rfl,
   (C3_validation_errors "   " sampleDb rfl).1 (by decide),
   (C3_validation_errors "UPDATE t SET x=1" sampleDb rfl).2 (by decide) (by decide)⟩

/-- Claim C4 (spec-modelled normalizer): a payload whose node-type field
is missing fails with `MalformedPlanError`, and a payload carrying the
node-type field at every node normalizes successfully whatever its other
fields hold. -/
theorem C4_normalization_malformed :
    (∀ (otherFields : List (String × String)) (children : List NativePayload),
       normalizePlan (.node none otherFields children) =
         .error .MalformedPlanError) ∧
    (∀ p : NativePayload, allTyped p = true → (normalizePlan p).isOk = true) :=
  ⟨fun _ _ => rfl, fun p h => normalizePlan_ok_of_allTyped p h⟩

/-- Claim C4, witness: a malformed payload fails, and a fully typed
payload with an unknown node type and unexpected other fields succeeds. -/
theorem C4_normalization_malformed_witness :
    normalizePlan (.node none [("a", "b")] []) = .error .MalformedPlanError ∧
    allTyped weirdPayload = true ∧
    (normalizePlan weirdPayload).isOk = true :=
  ⟨C4_normalization_malformed.1 [("a", "b")] [],
   by decide,
   C4_normalization_malformed.2 weirdPayload (by decide)⟩

/-- Claim C7: when a statistic row is the one found for the scanned
table, row count above 10000 on a full scan (`type = ALL`) emits the
`LARGE_TABLE_SCAN` recommendation with severity HIGH and the row count
substituted into the message, and an index/data size ratio above one half
emits the `HIGH_INDEX_RATIO` recommendation with severity LOW. -/
theorem C7_statistics_rule (er : MySQLRow) (stats : List MySQLTableStat)
    (st : MySQLTableStat)
    (hfind : stats.find? (fun s => some s.table_name == er.table) = some st) :
    ((st.table_rows > 10000 ∧ er.type = some "ALL") →
       largeTableScanRecommendation st.table_rows ∈
         mysqlAnalyzeTableStatistics er stats ∧
       (largeTableScanRecommendation st.table_rows).severity = Severity.HIGH ∧
       (largeTableScanRecommendation st.table_rows).message.params =
         [toString st.table_rows]) ∧
    (indexRatioExceedsHalf st.index_length st.data_length = true →
       highIndexRatioRecommendation ∈ mysqlAnalyzeTableStatistics er stats ∧
       highIndexRatioRecommendation.severity = Severity.LOW) := by
  have hne : stats.isEmpty = false := by
    cases stats with
    | nil => simp at hfind
    | cons a as => rfl
  constructor
  · rintro ⟨hrows, htype⟩
    refine ⟨?_, rfl, rfl⟩
    simp only [mysqlAnalyzeTableStatistics, hne, hfind, Bool.false_eq_true,
      if_false, htype]
    simp [hrows]
  · intro hratio
    refine ⟨?_, rfl⟩
    simp only [mysqlAnalyzeTableStatistics, hne, hfind, Bool.false_eq_true,
      if_false, hratio]
    simp

/-- Claim C7, witness: the spec's concrete example — `orders` with 50000
rows, 1000000 data bytes and 600000 index bytes, scanned with
`type = ALL` — yields both recommendations. -/
theorem C7_statistics_rule_witness :
    largeTableScanRecommendation 50000 ∈
      mysqlAnalyzeTableStatistics ordersRow [ordersStat] ∧
    highIndexRatioRecommendation ∈
      mysqlAnalyzeTableStatistics ordersRow [ordersStat] :=
  ⟨((C7_statistics_rule ordersRow [ordersStat] ordersStat (by decide)).1
      ⟨by decide, rfl⟩).1,
   ((C7_statistics_rule ordersRow [ordersStat] ordersStat (by decide)).2
      (by decide)).1⟩

/-- Claim C8: with a working connection, a valid SELECT text and a
retrieved plan, `analyze` succeeds whatever the outcomes of the two
metadata queries: a failed collection is replaced by the empty one, the
recommendation pipeline still runs on the plan data, and the assembled
result is returned; conversely (still under a working connection) an
`analyze` error can only come from validation or plan retrieval. -/
theorem C8_metadata_failures_nonfatal (q : String) (db : DbSession)
    (er : ExplainResult)
    (hc : db.connectOutcome = Except.ok ())
    (hv1 : jsTrim q ≠ "")
    (hv2 : jsStartsWith (jsToLower (jsTrim q)) "select" = true)
    (hp : db.planOutcome = Except.ok er) :
    (analyze q db).result =
      Except.ok
        { query := jsTrim q, executionPlan := er,
          tableStatistics := orEmpty db.statsOutcome,
          indexes := orEmpty db.indexesOutcome,
          recommendations := generateRecommendations (some er)
            (orEmpty db.statsOutcome) (orEmpty db.indexesOutcome) } ∧
    (∀ e, db.statsOutcome = Except.error e → orEmpty db.statsOutcome = []) ∧
    (∀ e, db.indexesOutcome = Except.error e → orEmpty db.indexesOutcome = []) ∧
    (∀ (q' : String) (db' : DbSession), db'.connectOutcome = Except.ok () →
       (analyze q' db').result.isOk = false →
       jsTrim q' = "" ∨ jsStartsWith (jsToLower (jsTrim q')) "select" = false ∨
         db'.planOutcome.isOk = false) := by
  have hq : q ≠ "" := by
    intro h
    exact hv1 (by rw [h]; rfl)
  refine ⟨?_, ?_, ?_, ?_⟩
  · simp [analyze, hc, analyzeBody, hq, hv1, hv2, hp]
  · intro e he
    rw [he]
    rfl
  · intro e he
    rw [he]
    rfl
  · intro q' db' hc' hbad
    by_cases h1 : jsTrim q' = ""
    · exact Or.inl h1
    by_cases h2 : jsStartsWith (jsToLower (jsTrim q')) "select" = false
    · exact Or.inr (Or.inl h2)
    cases hp' : db'.planOutcome with
    | error e => exact Or.inr (Or.inr rfl)

    | ok er' =>
        exfalso
        have h2t : jsStartsWith (jsToLower (jsTrim q')) "select" = true := by
          cases hb : jsStartsWith (jsToLower (jsTrim q')) "select"
          · exact absurd hb h2
          · rfl
        have hq' : q' ≠ "" := by
          intro h
          exact h1 (by rw [h]; rfl)
        rw [show (analyze q' db').result.isOk = true from by
          simp [analyze, hc', analyzeBody, hq', h1, h2t, hp', Except.isOk,
            Except.toBool]] at hbad
        exact absurd hbad (by simp)

/-- Claim C8, witness: a session whose statistics and index queries both
reject still produces a full `AnalysisResult` with empty collections. -/
theorem C8_metadata_failures_nonfatal_witness :
    (analyze "select * from orders" sampleDbMetaDown).result =
      Except.ok
        { query := "select * from orders",
          executionPlan := sampleExplain,
          tableStatistics := [], indexes := [],
          recommendations := generateRecommendations (some sampleExplain) [] [] } :=
  (C8_metadata_failures_nonfatal "select * from orders" sampleDbMetaDown
    sampleExplain rfl (by decide) (by decide) rfl).1

/-- Claim C9: on every exit path of `analyze`, every acquired client is
released: the resource-event trace is either empty (the connection
attempt itself rejected, so nothing was acquired) or exactly one
`acquire` followed by one `release`; acquisitions and releases always
balance, so `analyze` never finishes while holding the client. -/
theorem C9_resource_release (q : String) (db : DbSession) :
    ((analyze q db).events.count ResEvent.acquire =
       (analyze q db).events.count ResEvent.release) ∧
    ((analyze q db).events = [] ∨
       (analyze q db).events = [ResEvent.acquire, ResEvent.release]) := by
  cases hc : db.connectOutcome with
  | error e => simp [analyze, hc]
  | ok u =>
      cases u
      have he : (analyze q db).events = [ResEvent.acquire, ResEvent.release] := by
        simp [analyze, hc]
      rw [he]
      exact ⟨by decide, Or.inr rfl⟩

/-- Claim C10: `generateRecommendations` is total, and when the one rule
that can throw (`analyzeIndexUsage`, on a `Hash Join` with an absent
`Hash Cond`) fails, the `catch` absorbs the exception and the
recommendations collected by the three rules that ran before the failure
are still prioritized and returned. -/
theorem C10_rule_error_caught (er : ExplainResult)
    (tableStats : List PGTableStat) (indexes : List PGIndexRow)
    (hthrow : (analyzeIndexUsage er.Plan.info indexes).isOk = false) :
    generateRecommendations (some er) tableStats indexes =
      prioritizeRecommendations
        (analyzeScanMethods er.Plan.info ++ analyzeJoinOperations er.Plan.info ++
          analyzeTemporaryStructures er.Plan.info) := by
  cases hres : analyzeIndexUsage er.Plan.info indexes with
  | error e => simp [generateRecommendations, hres]
  | ok r =>
      rw [hres] at hthrow
      simp [Except.isOk, Except.toBool] at hthrow

/-- Claim C10, witness: a plan whose root hash join lacks `Hash Cond`
makes the index-usage rule throw; the output is still the prioritized
result of the first three rules (here, the hash-spill finding). -/
theorem C10_rule_error_caught_witness :
    (analyzeIndexUsage hashJoinNoCondPlan.Plan.info []).isOk = false ∧
    generateRecommendations (some hashJoinNoCondPlan) [] [] =
      prioritizeRecommendations
        (analyzeScanMethods hashJoinNoCondPlan.Plan.info ++
          analyzeJoinOperations hashJoinNoCondPlan.Plan.info ++
          analyzeTemporaryStructures hashJoinNoCondPlan.Plan.info) :=
  ⟨by decide, C10_rule_error_caught hashJoinNoCondPlan [] [] (by decide)⟩

end Queryist
